import Mathlib

/-!
Shallow embedding of the test-data acquisition routine of
`notebooks/tests/conftest.py` and of the directory-diff helper
`print_new_contents` of `notebooks/common/rompy_core_features.py`.

The fetch routine (`download_and_extract_data`) queries the GitHub
"latest release" endpoint, downloads the release zipball into a scoped
temporary directory, extracts the members under `<top-level>/data/`,
and installs that subtree as the local test-data directory.  The module
level code guards the call behind an existence/non-emptiness check and
turns any exception into a diagnostic on stderr plus `sys.exit(1)`.

The embedding models:
  * a zip archive as its member list in `namelist()` order, each member
    carrying its full path and byte contents;
  * the state of the target directory `DATA_DIR` as `Option` of its
    contents (`none` = the directory does not exist, `some l` = it
    exists and holds exactly the entries `l`, as relative paths);
  * the two HTTP responses (release metadata and zipball download) as
    status codes plus the already-decoded payloads, with `Option` for
    the payload decoding steps that can raise
    (`resp.json()["zipball_url"]`, `zipfile.ZipFile`);
  * `requests.Response.raise_for_status`, which raises `HTTPError`
    exactly for status codes 400-599 (4xx client errors and 5xx server
    errors);
  * the `tempfile.TemporaryDirectory` context manager by recording, per
    exit path, whether the temporary workspace is still on disk
    afterwards (it never is: the context manager removes it on success
    and on every exception).
-/

/-- A byte of file content, as a natural number 0-255. -/
abbrev Byte := Nat

/-- One member of a zip archive: its full path inside the archive (as
returned by `namelist()`) and its byte contents.  Directory members end
in `/` and have empty contents. -/
structure ZipEntry where
  name : String
  content : List Byte
deriving Repr, DecidableEq

/-- A zip archive, as its list of members in `namelist()` order. -/
abbrev Archive := List ZipEntry

/-- Contents of the target data directory: entries as paths relative to
the directory root, each with its byte contents. -/
abbrev DirContents := List (String × List Byte)

/-- State of the target directory `DATA_DIR` on disk: `none` when it
does not exist, `some l` when it exists with contents `l` (so `some []`
is an existing empty directory). -/
abbrev DirState := Option DirContents

/-- Response of the `releases/latest` metadata endpoint: the HTTP
status, and `some url` when the body parses as JSON carrying a
`zipball_url` key (the code runs `resp.json()["zipball_url"]`, which
raises on malformed payloads — modelled as `none`). -/
structure MetaResponse where
  status : Nat
  zipballUrl : Option String
deriving Repr, DecidableEq

/-- Response of the zipball download: the HTTP status, and `some ar`
when the downloaded bytes form a valid zip archive with member list
`ar` (`zipfile.ZipFile` raises `BadZipFile` otherwise — modelled as
`none`). -/
structure ZipResponse where
  status : Nat
  archive : Option Archive
deriving Repr, DecidableEq

/-- The remote world a run interacts with: the metadata response and
the zipball download response. -/
structure Network where
  meta : MetaResponse
  zip : ZipResponse
deriving Repr, DecidableEq

/-- `requests.Response.raise_for_status` raises `HTTPError` exactly for
status codes 400-599 (4xx client errors, 5xx server errors); all other
statuses, 3xx included, pass through silently. -/
def raisesForStatus (s : Nat) : Bool :=
  decide (400 ≤ s ∧ s < 600)

/-- A 2xx (success) HTTP status. -/
def is2xx (s : Nat) : Bool :=
  decide (200 ≤ s ∧ s < 300)

/-- The exceptions the routine can raise, by raise site. -/
inductive FetchError where
  /-- `HTTPError` from `resp.raise_for_status()` on the metadata request. -/
  | httpMeta (status : Nat)
  /-- `resp.json()` / `release["zipball_url"]` failed (JSONDecodeError, KeyError). -/
  | jsonMeta
  /-- `HTTPError` from `r.raise_for_status()` on the zipball download. -/
  | httpZip (status : Nat)
  /-- `zipfile.BadZipFile`: the downloaded bytes are not a zip archive. -/
  | badZip
  /-- `IndexError`: `namelist()[0]` on an archive with no members. -/
  | emptyArchive
  /-- `FileNotFoundError`: `shutil.copytree` source `<tmp>/<top>/data` absent
  because no member was extracted. -/
  | missingDataSubtree
deriving Repr, DecidableEq

/-- Outcome of one call of `download_and_extract_data`: how many
network requests were performed, the final state of `DATA_DIR`, whether
the temporary workspace is still on disk, and the raised exception if
any. -/
structure RunResult where
  requests : Nat
  dataDir : DirState
  tmpLeft : Bool
  error : Option FetchError
deriving Repr, DecidableEq

/-- Python's `s.split("/")[0]`: the characters of `s` before the first
`/` (all of `s` when it has none). -/
def pySplitHead (s : String) : String :=
  String.mk (s.toList.takeWhile (fun c => c != '/'))

/-- Character-list test used to model Python's `str.startswith`. -/
def chPfx : List Char → List Char → Bool
  | [], _ => true
  | _ :: _, [] => false
  | a :: as, b :: bs => a == b && chPfx as bs

/-- Python's `s.startswith(pre)`. -/
def pyStartswith (s pre : String) : Bool :=
  chPfx pre.toList s.toList

/-- `s` with the leading characters of length `|pre|` removed: the path
of a member relative to the extracted subtree root. -/
def pyDropLen (s pre : String) : String :=
  String.mk (s.toList.drop pre.toList.length)

/-- The archive's top-level directory name, as the code computes it:
`zip_ref.namelist()[0].split("/")[0]` (meaningless on an empty archive,
where the code raises before using it). -/
def topLevel : Archive → String
  | [] => ""
  | e :: _ => pySplitHead e.name

/-- The extraction loop: `zip_ref.extract(member, tmpdir)` for exactly
the members whose path starts with the prefix `<top-level>/data/`. -/
def extractedMembers (ar : Archive) (pfx : String) : Archive :=
  ar.filter (fun m => pyStartswith m.name pfx)

/-- Contents `DATA_DIR` receives from
`shutil.copytree(os.path.join(tmpdir, top_level, "data"), DATA_DIR)`:
every extracted member keyed by its path relative to the copied root
(the member that is the subtree root itself contributes the root
directory, not an entry inside it). -/
def copytreeResult (extracted : Archive) (pfx : String) : DirContents :=
  extracted.filterMap (fun m =>
    let rel := pyDropLen m.name pfx
    if rel = "" then none else some (rel, m.content))

/-- The routine `download_and_extract_data` of
`notebooks/tests/conftest.py`, as a function of the remote responses
and of the state of `DATA_DIR` before the call.  Mirrors the source
line by line:

  1. `resp = requests.get(GITHUB_API_RELEASES)`; `resp.raise_for_status()`;
  2. `zip_url = resp.json()["zipball_url"]`;
  3. inside `with tempfile.TemporaryDirectory() as tmpdir`: stream the
     zipball to `tmpdir/data.zip` (`r.raise_for_status()` on failure);
  4. `zipfile.ZipFile(zip_path)`; `top_level = namelist()[0].split("/")[0]`;
  5. extract exactly the members starting with `f"{top_level}/data/"`;
  6. `if os.path.exists(DATA_DIR): shutil.rmtree(DATA_DIR)` — note this
     runs BEFORE `copytree`, so it removes a pre-existing (empty)
     `DATA_DIR` even when `copytree` then fails;
  7. `shutil.copytree(src_data_dir, DATA_DIR)`, raising
     `FileNotFoundError` when nothing was extracted (the source
     directory does not exist).

Every exit path leaves the temporary workspace removed (the context
manager cleans up on success and on exceptions alike). -/
def download_and_extract_data (net : Network) (d0 : DirState) : RunResult :=
  if raisesForStatus net.meta.status then
    ⟨1, d0, false, some (FetchError.httpMeta net.meta.status)⟩
  else match net.meta.zipballUrl with
    | none => ⟨1, d0, false, some FetchError.jsonMeta⟩
    | some _ =>
      if raisesForStatus net.zip.status then
        ⟨2, d0, false, some (FetchError.httpZip net.zip.status)⟩
      else match net.zip.archive with
        | none => ⟨2, d0, false, some FetchError.badZip⟩
        | some [] => ⟨2, d0, false, some FetchError.emptyArchive⟩
        | some (e0 :: rest) =>
          if (extractedMembers (e0 :: rest) (pySplitHead e0.name ++ "/data/")).isEmpty then
            ⟨2, none, false, some FetchError.missingDataSubtree⟩
          else
            ⟨2,
             some (copytreeResult
               (extractedMembers (e0 :: rest) (pySplitHead e0.name ++ "/data/"))
               (pySplitHead e0.name ++ "/data/")),
             false, none⟩

/-- The module-level guard of `conftest.py`:
`if not os.path.exists(DATA_DIR) or not os.listdir(DATA_DIR)` — the
fetch proceeds exactly when the directory is missing or empty. -/
def guardFires (d0 : DirState) : Bool :=
  match d0 with
  | none => true
  | some l => l.isEmpty

/-- The message `str(e)` of each modelled exception, as interpolated
into the diagnostic `f"Failed to download test data: {e}"`. -/
def describeError : FetchError → String
  | .httpMeta s => "HTTP error " ++ toString s ++ " for latest-release metadata"
  | .jsonMeta => "invalid release metadata"
  | .httpZip s => "HTTP error " ++ toString s ++ " for zipball download"
  | .badZip => "bad zip file"
  | .emptyArchive => "archive has no members"
  | .missingDataSubtree => "no data directory in archive"

/-- Outcome of importing `conftest.py` (running its module-level code):
requests performed, final `DATA_DIR` state, temporary-workspace
residue, the `sys.exit` code if any, and the lines printed to stderr. -/
structure InitResult where
  requests : Nat
  dataDir : DirState
  tmpLeft : Bool
  exitCode : Option Nat
  stderrLines : List String
deriving Repr, DecidableEq

/-- The `<top-level>/data` subtree of an archive, as the spec's
fresh-fetch property describes the result: every member whose path
begins with `<top-level>/data/`, keyed by its path relative to that
subtree (the subtree root itself is the directory, not a member of the
result), with the same byte contents. -/
def specDataSubtree (ar : Archive) : DirContents :=
  ar.filterMap (fun m =>
    if pyStartswith m.name (topLevel ar ++ "/data/") then
      (if pyDropLen m.name (topLevel ar ++ "/data/") = "" then none
       else some (pyDropLen m.name (topLevel ar ++ "/data/"), m.content))
    else none)

/-- The module-level code of `conftest.py`: run the fetch when the
guard fires; on any exception print
`f"Failed to download test data: {e}"` to stderr and `sys.exit(1)`. -/
def conftestModuleInit (net : Network) (d0 : DirState) : InitResult :=
  if guardFires d0 then
    match (download_and_extract_data net d0).error with
    | none =>
        ⟨(download_and_extract_data net d0).requests,
         (download_and_extract_data net d0).dataDir,
         (download_and_extract_data net d0).tmpLeft, none, []⟩
    | some e =>
        ⟨(download_and_extract_data net d0).requests,
         (download_and_extract_data net d0).dataDir,
         (download_and_extract_data net d0).tmpLeft, some 1,
         ["Failed to download test data: " ++ describeError e]⟩
  else ⟨0, d0, false, none, []⟩

/-!
Model of the directory-diff helper `print_new_contents` of
`notebooks/common/rompy_core_features.py`:

```
def print_new_contents(path, old_contents=None):
    print(f"\nContents of {path}:")
    for item in path.iterdir():
        if item.is_dir():
            print(f" - {item.name}/")
            print_new_contents(item, old_contents=old_contents)
        if old_contents is None or item.name not in old_contents:
            print(f" - {item.name} (new)")
        else:
            print(f" - {item.name}")
    return set(item.name for item in path.iterdir())
```

A directory is modelled as the list of its items (`path.iterdir()`
order); printing is modelled by returning the list of printed lines.
-/

/-- One filesystem item as `path.iterdir()` yields it: a file, or a
directory with its own items. -/
inductive FsItem where
  | file (name : String) : FsItem
  | dir (name : String) (children : List FsItem) : FsItem
deriving Repr

/-- `item.name`. -/
def FsItem.name : FsItem → String
  | .file n => n
  | .dir n _ => n

/-- The condition of the second `if` of the loop body:
`old_contents is None or item.name not in old_contents`. -/
def isMarkedNew (old : Option (List String)) (n : String) : Bool :=
  match old with
  | none => true
  | some l => decide (n ∉ l)

/-- The line the second `if` of the loop body prints for an item named
`n`: `" - {n} (new)"` when the item counts as new, `" - {n}"`
otherwise. -/
def markLine (old : Option (List String)) (n : String) : String :=
  if isMarkedNew old n then " - " ++ n ++ " (new)" else " - " ++ n

mutual

/-- The lines one iteration of the loop of `print_new_contents` prints
for `item`: for a directory, its name with a trailing slash, then the
whole recursive listing (header included), and in every case the
marked name line (the source uses two independent `if`s, so a
directory is printed twice). -/
def itemLines (path : String) (old : Option (List String)) : FsItem → List String
  | .file n => [markLine old n]
  | .dir n cs =>
      (" - " ++ n ++ "/") ::
        (("\nContents of " ++ (path ++ "/" ++ n) ++ ":") ::
          itemsLines (path ++ "/" ++ n) old cs) ++ [markLine old n]

/-- The lines the loop of `print_new_contents` prints for a list of
items, in order. -/
def itemsLines (path : String) (old : Option (List String)) : List FsItem → List String
  | [] => []
  | i :: is => itemLines path old i ++ itemsLines path old is

end

/-- `print_new_contents(path, old_contents)` over a directory whose
`iterdir()` yields `items`: the pair of the printed lines (header
first) and the returned value `set(item.name for item in
path.iterdir())`, modelled as the list of the items' names. -/
def print_new_contents (path : String) (items : List FsItem)
    (old : Option (List String)) : List String × List String :=
  (("\nContents of " ++ path ++ ":") :: itemsLines path old items,
   items.map FsItem.name)

/-!
Concrete inputs used by the witnesses and the counterexample below.
-/

/-- A small release archive: one member under `<top>/data/` and one
under `<top>/other/`. -/
def arOk : Archive :=
  [⟨"r-1/data/a.txt", [97]⟩, ⟨"r-1/other/b.txt", [98]⟩]

/-- A fully successful remote world serving `arOk`. -/
def netOk : Network :=
  ⟨⟨200, some "https://api.github.com/zipball/u"⟩, ⟨200, some arOk⟩⟩

/-- A remote world whose metadata endpoint answers 304 Not Modified (a
non-2xx status that `raise_for_status` does not turn into an error)
with a usable JSON body, and whose download then succeeds. -/
def net304 : Network :=
  ⟨⟨304, some "https://api.github.com/zipball/u"⟩, ⟨200, some arOk⟩⟩

/-- A remote world whose metadata endpoint answers 404. -/
def net404 : Network :=
  ⟨⟨404, none⟩, ⟨200, none⟩⟩

/-- A remote world serving an archive with no member under
`<top>/data/`. -/
def netNoData : Network :=
  ⟨⟨200, some "https://api.github.com/zipball/u"⟩,
   ⟨200, some [⟨"r-1/other/b.txt", [98]⟩]⟩⟩

/-- A small directory for the `print_new_contents` witness: one file
and one subdirectory. -/
def demoItems : List FsItem :=
  [FsItem.file "a.txt", FsItem.dir "sub" [FsItem.file "c.txt"]]

/-! ### Helper lemmas about the string primitives -/

theorem toList_append (s t : String) : (s ++ t).toList = s.toList ++ t.toList :=
  String.data_append s t

theorem chPfx_iff (a b : List Char) : chPfx a b = true ↔ ∃ t, b = a ++ t := by
  induction a generalizing b with
  | nil => simp [chPfx]
  | cons x xs ih =>
    cases b with
    | nil => simp [chPfx]
    | cons y ys =>
      simp only [chPfx, Bool.and_eq_true, beq_iff_eq, ih]
      constructor
      · rintro ⟨rfl, t, rfl⟩
        exact ⟨t, rfl⟩
      · rintro ⟨t, ht⟩
        simp only [List.cons_append] at ht
        injection ht with h1 h2
        exact ⟨h1.symm, t, h2⟩

theorem pyStartswith_iff (s pre : String) :
    pyStartswith s pre = true ↔ ∃ t, s = pre ++ t := by
  constructor
  · intro h
    obtain ⟨t, ht⟩ := (chPfx_iff _ _).mp h
    refine ⟨String.mk t, ?_⟩
    apply String.ext
    rw [String.data_append]
    exact ht
  · rintro ⟨t, rfl⟩
    exact (chPfx_iff _ _).mpr ⟨t.toList, toList_append pre t⟩

theorem pyDropLen_append (pre t : String) : pyDropLen (pre ++ t) pre = t := by
  unfold pyDropLen
  rw [toList_append, List.drop_left]
  rfl

/-! ### Characterisation of the extraction result -/

theorem copytree_extract_eq_spec (ar : Archive) :
    copytreeResult (extractedMembers ar (topLevel ar ++ "/data/"))
      (topLevel ar ++ "/data/") = specDataSubtree ar := by
  simp only [copytreeResult, extractedMembers, specDataSubtree, List.filterMap_filter]

theorem mem_specDataSubtree (ar : Archive) (p : String) (c : List Byte) :
    (p, c) ∈ specDataSubtree ar ↔
      (p ≠ "" ∧ ZipEntry.mk (topLevel ar ++ "/data/" ++ p) c ∈ ar) := by
  simp only [specDataSubtree, List.mem_filterMap]
  constructor
  · rintro ⟨m, hm, hf⟩
    by_cases hs : pyStartswith m.name (topLevel ar ++ "/data/") = true
    · rw [if_pos hs] at hf
      obtain ⟨t, ht⟩ := (pyStartswith_iff _ _).mp hs
      by_cases hr : pyDropLen m.name (topLevel ar ++ "/data/") = ""
      · rw [if_pos hr] at hf
        cases hf
      · rw [if_neg hr] at hf
        injection hf with hf
        rw [Prod.mk.injEq] at hf
        obtain ⟨hrel, hcontent⟩ := hf
        rw [ht, pyDropLen_append] at hrel
        refine ⟨?_, ?_⟩
        · intro hc
          apply hr
          rw [ht, pyDropLen_append, hrel]
          exact hc
        · have hname : m.name = topLevel ar ++ "/data/" ++ p := by
            rw [ht, hrel]
          have : ZipEntry.mk (topLevel ar ++ "/data/" ++ p) c = m := by
            cases m with
            | mk n cnt =>
              simp only at hname hcontent
              rw [hname, hcontent]
          rw [this]
          exact hm
    · rw [if_neg hs] at hf
      cases hf
  · rintro ⟨hne, hmem⟩
    refine ⟨⟨topLevel ar ++ "/data/" ++ p, c⟩, hmem, ?_⟩
    have hs : pyStartswith (topLevel ar ++ "/data/" ++ p) (topLevel ar ++ "/data/") = true :=
      (pyStartswith_iff _ _).mpr ⟨p, rfl⟩
    simp only [hs, if_true, pyDropLen_append, if_neg hne]

/-! ### Case analysis of a run of the fetch routine -/

theorem run_spec (net : Network) (d0 : DirState) :
    (download_and_extract_data net d0).tmpLeft = false ∧
    ((download_and_extract_data net d0).error = none →
      ∃ ar, net.zip.archive = some ar ∧ ar ≠ [] ∧
        extractedMembers ar (topLevel ar ++ "/data/") ≠ [] ∧
        download_and_extract_data net d0 =
          ⟨2, some (specDataSubtree ar), false, none⟩) ∧
    (∀ e, (download_and_extract_data net d0).error = some e →
      (download_and_extract_data net d0).dataDir = d0 ∨
      (download_and_extract_data net d0).dataDir = none) ∧
    (∀ d1, (download_and_extract_data net d0).error =
      (download_and_extract_data net d1).error) := by
  cases h1 : raisesForStatus net.meta.status with
  | true =>
    have hrun : ∀ d : DirState, download_and_extract_data net d =
        ⟨1, d, false, some (FetchError.httpMeta net.meta.status)⟩ := by
      intro d
      simp [download_and_extract_data, h1]
    simp [hrun]
  | false =>
    cases h2 : net.meta.zipballUrl with
    | none =>
      have hrun : ∀ d : DirState, download_and_extract_data net d =
          ⟨1, d, false, some FetchError.jsonMeta⟩ := by
        intro d
        simp [download_and_extract_data, h1, h2]
      simp [hrun]
    | some u =>
      cases h3 : raisesForStatus net.zip.status with
      | true =>
        have hrun : ∀ d : DirState, download_and_extract_data net d =
            ⟨2, d, false, some (FetchError.httpZip net.zip.status)⟩ := by
          intro d
          simp [download_and_extract_data, h1, h2, h3]
        simp [hrun]
      | false =>
        cases h4 : net.zip.archive with
        | none =>
          have hrun : ∀ d : DirState, download_and_extract_data net d =
              ⟨2, d, false, some FetchError.badZip⟩ := by
            intro d
            simp [download_and_extract_data, h1, h2, h3, h4]
          simp [hrun]
        | some ar =>
          cases ar with
          | nil =>
            have hrun : ∀ d : DirState, download_and_extract_data net d =
                ⟨2, d, false, some FetchError.emptyArchive⟩ := by
              intro d
              simp [download_and_extract_data, h1, h2, h3, h4]
            simp [hrun]
          | cons e0 rest =>
            cases h5 : (extractedMembers (e0 :: rest)
                (pySplitHead e0.name ++ "/data/")).isEmpty with
            | true =>
              have hrun : ∀ d : DirState, download_and_extract_data net d =
                  ⟨2, none, false, some FetchError.missingDataSubtree⟩ := by
                intro d
                simp [download_and_extract_data, h1, h2, h3, h4, h5]
              simp [hrun]
            | false =>
              have hspec := copytree_extract_eq_spec (e0 :: rest)
              simp only [topLevel] at hspec
              have hrun : ∀ d : DirState, download_and_extract_data net d =
                  ⟨2, some (specDataSubtree (e0 :: rest)), false, none⟩ := by
                intro d
                simp [download_and_extract_data, h1, h2, h3, h4, h5, hspec]
              have hne : extractedMembers (e0 :: rest)
                  (topLevel (e0 :: rest) ++ "/data/") ≠ [] := by
                intro hc
                simp only [topLevel] at hc
                rw [hc] at h5
                simp at h5
              refine ⟨by simp [hrun], fun _ => ⟨e0 :: rest, rfl, by simp, hne, hrun d0⟩,
                ?_, ?_⟩
              · intro e he
                rw [hrun d0] at he
                simp at he
              · intro d1
                rw [hrun d0, hrun d1]

/-! ### Individual branches of the routine and of the module-level code -/

theorem run_meta_http (net : Network) (d0 : DirState)
    (h : raisesForStatus net.meta.status = true) :
    download_and_extract_data net d0 =
      ⟨1, d0, false, some (FetchError.httpMeta net.meta.status)⟩ := by
  simp [download_and_extract_data, h]

theorem run_empty_archive (net : Network) (d0 : DirState)
    (h1 : raisesForStatus net.meta.status = false)
    (h2 : net.meta.zipballUrl.isSome = true)
    (h3 : raisesForStatus net.zip.status = false)
    (h4 : net.zip.archive = some []) :
    download_and_extract_data net d0 = ⟨2, d0, false, some FetchError.emptyArchive⟩ := by
  obtain ⟨u, hu⟩ := Option.isSome_iff_exists.mp h2
  simp [download_and_extract_data, h1, hu, h3, h4]

theorem run_no_data_members (net : Network) (d0 : DirState) (ar : Archive)
    (h1 : raisesForStatus net.meta.status = false)
    (h2 : net.meta.zipballUrl.isSome = true)
    (h3 : raisesForStatus net.zip.status = false)
    (h4 : net.zip.archive = some ar) (h5 : ar ≠ [])
    (h6 : extractedMembers ar (topLevel ar ++ "/data/") = []) :
    download_and_extract_data net d0 =
      ⟨2, none, false, some FetchError.missingDataSubtree⟩ := by
  obtain ⟨u, hu⟩ := Option.isSome_iff_exists.mp h2
  cases ar with
  | nil => exact absurd rfl h5
  | cons e0 rest =>
    simp only [topLevel] at h6
    simp [download_and_extract_data, h1, hu, h3, h4, h6]

theorem conftest_guard_skip (net : Network) (l : DirContents) (h : l ≠ []) :
    conftestModuleInit net (some l) = ⟨0, some l, false, none, []⟩ := by
  have hg : guardFires (some l) = false := by
    simp [guardFires, h]
  simp [conftestModuleInit, hg]

theorem conftest_on_error (net : Network) (d0 : DirState) (e : FetchError)
    (hg : guardFires d0 = true)
    (he : (download_and_extract_data net d0).error = some e) :
    conftestModuleInit net d0 =
      ⟨(download_and_extract_data net d0).requests,
       (download_and_extract_data net d0).dataDir,
       (download_and_extract_data net d0).tmpLeft, some 1,
       ["Failed to download test data: " ++ describeError e]⟩ := by
  simp only [conftestModuleInit, hg, if_true, he]

theorem conftest_on_success (net : Network) (d0 : DirState)
    (hg : guardFires d0 = true)
    (he : (download_and_extract_data net d0).error = none) :
    conftestModuleInit net d0 =
      ⟨(download_and_extract_data net d0).requests,
       (download_and_extract_data net d0).dataDir,
       (download_and_extract_data net d0).tmpLeft, none, []⟩ := by
  simp only [conftestModuleInit, hg, if_true, he]

/-! ### The claims -/

/-- C1: for a target directory that does not exist before the call, a
successful run of the fetch routine leaves the target directory
existing with contents equal to the `<top-level>/data` subtree of the
downloaded archive — the same set of relative paths, member for
member, with the same byte contents (`specDataSubtree`). -/
theorem c1_fresh_fetch (net : Network) (ar : Archive)
    (har : net.zip.archive = some ar)
    (hsucc : (download_and_extract_data net none).error = none) :
    (download_and_extract_data net none).dataDir = some (specDataSubtree ar) := by
  obtain ⟨ar', har', hne', hext', hrun⟩ := (run_spec net none).2.1 hsucc
  rw [har] at har'
  injection har' with h
  subst h
  rw [hrun]

/-- Witness for C1 on a concrete archive. -/
theorem c1_fresh_fetch_witness :
    (download_and_extract_data netOk none).dataDir = some (specDataSubtree arOk) :=
  c1_fresh_fetch netOk arOk rfl (by decide)

/-- C2: for a target directory that exists and contains at least one
entry, the module-level code performs zero network requests and leaves
everything unchanged (no download, no directory change, no temporary
residue, no exit, no stderr output). -/
theorem c2_idempotence (net : Network) (l : DirContents) (h : l ≠ []) :
    conftestModuleInit net (some l) = ⟨0, some l, false, none, []⟩ :=
  conftest_guard_skip net l h

/-- Witness for C2 on a concrete non-empty directory. -/
theorem c2_idempotence_witness :
    conftestModuleInit netOk (some [("a.txt", [97])]) =
      ⟨0, some [("a.txt", [97])], false, none, []⟩ :=
  c2_idempotence netOk [("a.txt", [97])] (by decide)

/-- C3: on any successful run, the resulting target directory holds an
entry `(p, c)` exactly when the archive has a member named
`<top-level>/data/` ++ `p` with contents `c` (and `p` is not the
subtree root itself); in particular no member outside
`<top-level>/data/` ever appears there. -/
theorem c3_archive_filtering (net : Network) (ar : Archive) (d0 : DirState)
    (l : DirContents)
    (har : net.zip.archive = some ar)
    (hsucc : (download_and_extract_data net d0).error = none)
    (hl : (download_and_extract_data net d0).dataDir = some l) :
    ∀ p c, (p, c) ∈ l ↔
      (p ≠ "" ∧ ZipEntry.mk (topLevel ar ++ "/data/" ++ p) c ∈ ar) := by
  obtain ⟨ar', har', hne', hext', hrun⟩ := (run_spec net d0).2.1 hsucc
  rw [har] at har'
  injection har' with h
  subst h
  rw [hrun] at hl
  have hl' : some (specDataSubtree ar) = some l := hl
  injection hl' with hl'
  intro p c
  rw [← hl']
  exact mem_specDataSubtree ar p c

/-- Witness for C3: on the synthetic archive with `r-1/data/a.txt` and
`r-1/other/b.txt`, after a successful run `a.txt` is present and no
`b.txt` from `other/` is. -/
theorem c3_archive_filtering_witness :
    ("a.txt", ([97] : List Byte)) ∈ specDataSubtree arOk ∧
    (("b.txt", ([98] : List Byte)) ∈ specDataSubtree arOk → False) := by
  have h := c3_archive_filtering netOk arOk none (specDataSubtree arOk) rfl
    (by decide) (by decide)
  constructor
  · exact (h "a.txt" [97]).mpr ⟨by decide, by decide⟩
  · intro hmem
    exact absurd ((h "b.txt" [98]).mp hmem).2 (by decide)

/-- C4 is CORRECTED.  Counterexample to the claim as stated: the
metadata endpoint answers 304 — a non-2xx status — yet
`resp.raise_for_status()` raises only for statuses 400-599, so the
routine reports no error at all and goes on to create the target
directory. -/
theorem c4_counterexample :
    is2xx net304.meta.status = false ∧
    (download_and_extract_data net304 none).error = none ∧
    (download_and_extract_data net304 none).dataDir ≠ none := by
  refine ⟨by decide, by decide, by decide⟩

/-- C4 (amended): for every run in which the metadata endpoint returns
a 4xx or 5xx status (400-599) — the statuses
`requests.Response.raise_for_status` raises for — the routine raises a
network-category error after its single request and the target
directory is left exactly as it was before the call. -/
theorem c4_meta_failure (net : Network) (d0 : DirState)
    (h4 : 400 ≤ net.meta.status) (h6 : net.meta.status < 600) :
    (download_and_extract_data net d0).error =
      some (FetchError.httpMeta net.meta.status) ∧
    (download_and_extract_data net d0).dataDir = d0 ∧
    (download_and_extract_data net d0).requests = 1 := by
  have hr : raisesForStatus net.meta.status = true := by
    simp [raisesForStatus, h4, h6]
  rw [run_meta_http net d0 hr]
  exact ⟨rfl, rfl, rfl⟩

/-- Witness for the amended C4 at status 404. -/
theorem c4_meta_failure_witness :
    (download_and_extract_data net404 none).error =
      some (FetchError.httpMeta 404) ∧
    (download_and_extract_data net404 none).dataDir = none :=
  ⟨(c4_meta_failure net404 none (by decide) (by decide)).1,
   (c4_meta_failure net404 none (by decide) (by decide)).2.1⟩

/-- C5: after any invocation — every outcome of the routine and of the
module-level code alike — the scoped temporary workspace is gone
(`tempfile.TemporaryDirectory` removes it on success and on every
exception). -/
theorem c5_cleanup_invariant (net : Network) (d0 : DirState) :
    (download_and_extract_data net d0).tmpLeft = false ∧
    (conftestModuleInit net d0).tmpLeft = false := by
  refine ⟨(run_spec net d0).1, ?_⟩
  unfold conftestModuleInit
  split
  · split
    · exact (run_spec net d0).1
    · exact (run_spec net d0).1
  · rfl

/-- C6: a target directory that exists but is empty does not stop the
fetch (the guard fires exactly as for a missing directory), the run
raises the same error as the fresh-fetch run would, and when the run
succeeds the whole module-level outcome — final directory contents
included — equals the fresh-fetch one for the same archive. -/
theorem c6_stale_empty_replace (net : Network) :
    guardFires (some []) = true ∧
    (download_and_extract_data net (some [])).error =
      (download_and_extract_data net none).error ∧
    ((download_and_extract_data net (some [])).error = none →
      conftestModuleInit net (some []) = conftestModuleInit net none) := by
  refine ⟨rfl, (run_spec net (some [])).2.2.2 none, ?_⟩
  intro hsucc
  have hsucc' : (download_and_extract_data net none).error = none := by
    rw [← (run_spec net (some [])).2.2.2 none]
    exact hsucc
  obtain ⟨ar, har, hne, hext, hrun⟩ := (run_spec net (some [])).2.1 hsucc
  obtain ⟨ar', har', hne', hext', hrun'⟩ := (run_spec net none).2.1 hsucc'
  rw [har] at har'
  injection har' with h
  subst h
  rw [conftest_on_success net (some []) rfl hsucc,
    conftest_on_success net none rfl hsucc', hrun, hrun']

/-- Witness for C6 on a concrete successful fetch. -/
theorem c6_stale_empty_replace_witness :
    conftestModuleInit netOk (some []) = conftestModuleInit netOk none :=
  (c6_stale_empty_replace netOk).2.2 (by decide)

/-- C7: whenever the routine raises (and it only runs when the guard
fired), the module-level code exits the process with status 1 — a
non-zero status — after printing the diagnostic
`Failed to download test data: <the failure>` to stderr. -/
theorem c7_process_exit_contract (net : Network) (d0 : DirState) (e : FetchError)
    (hg : guardFires d0 = true)
    (he : (download_and_extract_data net d0).error = some e) :
    (conftestModuleInit net d0).exitCode = some 1 ∧
    (conftestModuleInit net d0).exitCode ≠ some 0 ∧
    (conftestModuleInit net d0).stderrLines =
      ["Failed to download test data: " ++ describeError e] := by
  rw [conftest_on_error net d0 e hg he]
  refine ⟨rfl, by simp, rfl⟩

/-- Witness for C7: the 404 metadata failure aborts the process. -/
theorem c7_process_exit_contract_witness :
    (conftestModuleInit net404 none).exitCode = some 1 ∧
    (conftestModuleInit net404 none).exitCode ≠ some 0 ∧
    (conftestModuleInit net404 none).stderrLines =
      ["Failed to download test data: " ++
        describeError (FetchError.httpMeta 404)] :=
  c7_process_exit_contract net404 none (FetchError.httpMeta 404) rfl (by decide)

/-- C8: the target directory is installed only by the final, atomic
`copytree` of a fully extracted subtree: on every failing run its final
state is the pre-call state or "missing" — never a half-populated
partial result. -/
theorem c8_no_partial_install (net : Network) (d0 : DirState) (e : FetchError)
    (he : (download_and_extract_data net d0).error = some e) :
    (download_and_extract_data net d0).dataDir = d0 ∨
    (download_and_extract_data net d0).dataDir = none :=
  (run_spec net d0).2.2.1 e he

/-- Witness for C8 on the 404 metadata failure. -/
theorem c8_no_partial_install_witness :
    (download_and_extract_data net404 none).dataDir = none ∨
    (download_and_extract_data net404 none).dataDir = none :=
  c8_no_partial_install net404 none (FetchError.httpMeta 404) (by decide)

/-- C9: when the downloaded archive is empty or has no member whose
path begins with `<top-level>/data/`, the routine raises
(`IndexError` on `namelist()[0]`, or `FileNotFoundError` from
`copytree` whose source was never created) and the module-level code
turns that into the fatal exit path; it never succeeds by silently
producing an empty target data directory. -/
theorem c9_missing_data_fatal (net : Network) (d0 : DirState) (ar : Archive)
    (h1 : raisesForStatus net.meta.status = false)
    (h2 : net.meta.zipballUrl.isSome = true)
    (h3 : raisesForStatus net.zip.status = false)
    (har : net.zip.archive = some ar)
    (hbad : ar = [] ∨ extractedMembers ar (topLevel ar ++ "/data/") = []) :
    ((download_and_extract_data net d0).error = some FetchError.emptyArchive ∨
     (download_and_extract_data net d0).error = some FetchError.missingDataSubtree) ∧
    (download_and_extract_data net d0).error ≠ none ∧
    (guardFires d0 = true →
      (conftestModuleInit net d0).exitCode = some 1 ∧
      (conftestModuleInit net d0).stderrLines ≠ []) := by
  have key : (download_and_extract_data net d0).error = some FetchError.emptyArchive ∨
      (download_and_extract_data net d0).error = some FetchError.missingDataSubtree := by
    rcases hbad with rfl | hext
    · rw [run_empty_archive net d0 h1 h2 h3 har]
      exact Or.inl rfl
    · cases har' : ar with
      | nil =>
        rw [har'] at har
        rw [run_empty_archive net d0 h1 h2 h3 har]
        exact Or.inl rfl
      | cons e0 rest =>
        rw [har'] at har hext
        rw [run_no_data_members net d0 (e0 :: rest) h1 h2 h3 har (by simp) hext]
        exact Or.inr rfl
  refine ⟨key, ?_, ?_⟩
  · rcases key with hk | hk <;> rw [hk] <;> simp
  · intro hg
    rcases key with hk | hk <;>
      rw [conftest_on_error net d0 _ hg hk] <;> exact ⟨rfl, by simp⟩

/-- Witness for C9 on an archive whose only member is outside
`<top>/data/`. -/
theorem c9_missing_data_fatal_witness :
    ((download_and_extract_data netNoData none).error = some FetchError.emptyArchive ∨
     (download_and_extract_data netNoData none).error = some FetchError.missingDataSubtree) ∧
    (download_and_extract_data netNoData none).error ≠ none ∧
    (guardFires (none : DirState) = true →
      (conftestModuleInit netNoData none).exitCode = some 1 ∧
      (conftestModuleInit netNoData none).stderrLines ≠ []) :=
  c9_missing_data_fatal netNoData none [⟨"r-1/other/b.txt", [98]⟩]
    (by decide) rfl (by decide) rfl (Or.inr (by decide))

/-- Every item of the directory gets its marked name line printed: the
line `markLine old item.name` occurs among the loop's output lines. -/
theorem markLine_mem_itemsLines (path : String) (old : Option (List String))
    (items : List FsItem) (it : FsItem) (hit : it ∈ items) :
    markLine old it.name ∈ itemsLines path old items := by
  induction items with
  | nil => cases hit
  | cons i is ih =>
    rcases List.mem_cons.mp hit with rfl | h
    · apply List.mem_append_left
      cases it with
      | file n => simp [itemLines, FsItem.name]
      | dir n cs => simp [itemLines, FsItem.name]
    · exact List.mem_append_right _ (ih h)

/-- C10: `print_new_contents` is a pure function of the directory and
the snapshot: it returns the set of relative paths of the directory's
contents (the names of its entries), every entry's marked line is
printed, and an entry is marked `(new)` exactly when its name lies in
the set difference between the directory's names and the prior
snapshot `old_contents`. -/
theorem c10_print_new_contents (path : String) (items : List FsItem)
    (l : List String) :
    (print_new_contents path items (some l)).2 = items.map FsItem.name ∧
    ∀ it ∈ items,
      markLine (some l) it.name ∈ (print_new_contents path items (some l)).1 ∧
      (markLine (some l) it.name = " - " ++ it.name ++ " (new)" ↔
        (it.name ∈ items.map FsItem.name ∧ it.name ∉ l)) := by
  refine ⟨rfl, ?_⟩
  intro it hit
  refine ⟨List.mem_cons_of_mem _ (markLine_mem_itemsLines path (some l) items it hit), ?_⟩
  constructor
  · intro hm
    by_cases hin : it.name ∈ l
    · exfalso
      have hml : markLine (some l) it.name = " - " ++ it.name := by
        simp [markLine, isMarkedNew, hin]
      rw [hml] at hm
      have hlen := congrArg String.length hm
      rw [String.length_append, String.length_append, String.length_append] at hlen
      have h6 : (" (new)" : String).length = 6 := rfl
      rw [h6] at hlen
      omega
    · exact ⟨List.mem_map.mpr ⟨it, hit, rfl⟩, hin⟩
  · rintro ⟨-, hnin⟩
    simp [markLine, isMarkedNew, hnin]

/-- Witness for C10 on a concrete directory and snapshot. -/
theorem c10_print_new_contents_witness :
    (print_new_contents "basedemo" demoItems (some ["a.txt"])).2 =
      ["a.txt", "sub"] ∧
    markLine (some ["a.txt"]) (FsItem.dir "sub" [FsItem.file "c.txt"]).name ∈
      (print_new_contents "basedemo" demoItems (some ["a.txt"])).1 := by
  have h := c10_print_new_contents "basedemo" demoItems ["a.txt"]
  refine ⟨?_, (h.2 (FsItem.dir "sub" [FsItem.file "c.txt"])
    (List.mem_cons_of_mem _ (List.mem_cons_self _ _))).1⟩
  rw [h.1]
  rfl
